import Mathlib

/-!
Shallow embedding of the boatlaunch-2025 map/upload code paths:
the slipway join (`fetchSlipways` in the Map component), the hierarchical
filter effect, the facilities parse/join, the file validation and the
two-phase photo-upload hand-off (`proxyUploadService` / `handlePhotoUpload`
in `SlipwayView.tsx`).
-/

namespace Boatlaunch

/-- JavaScript string truthiness for an optional string field:
`undefined` and the empty string are falsy. -/
def jsTruthyStr : Option String → Bool
  | none => false
  | some s => s != ""

/-- Models the JS idiom `x || fallback` on a string-or-undefined value. -/
def jsOr (x : Option String) (fallback : String) : String :=
  match x with
  | none => fallback
  | some s => if s = "" then fallback else s

/-- Models the JS idiom `a || b || []` on array-valued fields: a JS array is
always truthy, so only `undefined` falls through. -/
def jsOrArr (a b : Option (List String)) : List String :=
  match a with
  | some l => l
  | none => b.getD []

/-- Object property lookup, `table[key]`: the tables are JS objects, so keys
are unique and lookup returns the value or `undefined`. -/
def lookupTable {α : Type} (k : String) : List (String × α) → Option α
  | [] => none
  | (k₁, v) :: t => if k₁ = k then some v else lookupTable k t

/-- Digit run to a natural number (helper for the `parseFloat` model). -/
def natOfDigits (l : List Char) : ℕ :=
  l.foldl (fun a c => 10 * a + (c.toNat - 48)) 0

/-- Mantissa part of the `parseFloat` model: an optional integer digit run,
an optional dot and fraction digit run; trailing junk is ignored, and when
no digit is found at all the result is `none` (JS `NaN`). -/
def parseFloatCore (l : List Char) : Option ℚ :=
  let ip := l.takeWhile Char.isDigit
  let r₁ := l.dropWhile Char.isDigit
  let fp := match r₁ with
    | '.' :: t => t.takeWhile Char.isDigit
    | _ => []
  if ip.isEmpty && fp.isEmpty then none
  else some ((natOfDigits ip : ℚ) + (natOfDigits fp : ℚ) / ((10 : ℚ) ^ fp.length))

/-- Model of the JavaScript builtin `parseFloat` on decimal forms: skip
leading whitespace, optional sign, then the longest numeric prefix; `none`
models the `NaN` result. -/
def parseFloatJS (s : String) : Option ℚ :=
  match s.toList.dropWhile Char.isWhitespace with
  | '-' :: t => (parseFloatCore t).map (fun q => -q)
  | '+' :: t => parseFloatCore t
  | l => parseFloatCore l

/-- A comment record (`Comment` in `types/Slipway.ts`). -/
structure Comment where
  id : String
  userId : String
  userName : String
  userEmail : String
  text : String
  timestamp : ℕ
  rating : Option ℕ
  deriving DecidableEq, Repr

/-- A raw detail record as stored under `slipwayDetails/<id>` (capitalized
field names, see the remote data model); absent fields are `none`. -/
structure DetailsRecord where
  Name : Option String := none
  Description : Option String := none
  RampDescription : Option String := none
  Facilities : Option String := none
  Charges : Option String := none
  NearestPlace : Option String := none
  RampType : Option String := none
  Suitability : Option String := none
  RampLength : Option String := none
  UpperArea : Option String := none
  LowerArea : Option String := none
  Directions : Option String := none
  Email : Option String := none
  MobilePhoneNumber : Option String := none
  NavigationalHazards : Option String := none
  Website : Option String := none
  imgs : Option (List String) := none
  ImageIds : Option (List String) := none
  comments : Option (List Comment) := none
  deriving DecidableEq, Repr

/-- The in-memory entity (`Slipway` in `types/Slipway.ts`); optional TS
fields are `Option`, and `latitude`/`longitude` carry the `parseFloat`
result (`none` models `NaN`). -/
structure Slipway where
  id : String
  name : String
  description : String
  latitude : Option ℚ
  longitude : Option ℚ
  facilities : Option (List String) := none
  imgs : Option (List String) := none
  comments : Option (List Comment) := none
  charges : Option String := none
  nearestPlace : Option String := none
  rampType : Option String := none
  suitability : Option String := none
  directions : Option String := none
  email : Option String := none
  lowerArea : Option String := none
  mobilePhoneNumber : Option String := none
  navigationalHazards : Option String := none
  rampDescription : Option String := none
  rampLength : Option String := none
  upperArea : Option String := none
  website : Option String := none
  deriving DecidableEq, Repr

/-- Fuelled splitting on a nonempty separator (the fuel is an upper bound on
the characters left, so the fuel-exhausted arm is never reached); models the
JavaScript `String.prototype.split` with a nonempty string separator. -/
def splitOnAuxFuel (sep : List Char) : ℕ → List Char → List Char → List (List Char)
  | _, acc, [] => [acc.reverse]
  | 0, acc, l => [acc.reverse ++ l]
  | fuel + 1, acc, c :: rest =>
    if sep.isPrefixOf (c :: rest) then
      acc.reverse :: splitOnAuxFuel sep fuel [] ((c :: rest).drop sep.length)
    else
      splitOnAuxFuel sep fuel (c :: acc) rest

/-- `s.split(sep)` for a nonempty separator string. -/
def jsSplitOn (sep s : String) : List String :=
  (splitOnAuxFuel sep.data s.data.length [] s.data).map (fun l => String.mk l)

/-- `s.trim()`: drop leading and trailing whitespace. -/
def jsTrim (s : String) : String :=
  String.mk (((s.data.dropWhile Char.isWhitespace).reverse.dropWhile
    Char.isWhitespace).reverse)

/-- `array.join(sep)`. -/
def jsJoin (sep : String) : List String → String
  | [] => ""
  | [x] => x
  | x :: xs => x ++ sep ++ jsJoin sep xs

/-- Read-side facilities parse:
`details.Facilities ? details.Facilities.split(', ').filter(f => f.trim()) : []`. -/
def parseFacilities (fac : Option String) : List String :=
  match fac with
  | none => []
  | some s => if s = "" then [] else (jsSplitOn ", " s).filter (fun f => jsTrim f != "")

/-- Write-side facilities flattening: `facilities.join(', ')`. -/
def joinFacilities (l : List String) : String :=
  jsJoin ", " l

/-- Builds one entity from a coordinate pair and a detail record, exactly as
the body of the `forEach` in `fetchSlipways` does (Map component). -/
def mkSlipway (slipwayId : String) (coords : List String) (details : DetailsRecord) : Slipway :=
  { id := slipwayId
    name := jsOr details.Name "Unknown"
    description := jsOr details.Description "No description available"
    latitude := parseFloatJS (coords.getD 0 "")
    longitude := parseFloatJS (coords.getD 1 "")
    facilities := some (parseFacilities details.Facilities)
    imgs := some (jsOrArr details.imgs details.ImageIds)
    comments := some (details.comments.getD [])
    charges := some (jsOr details.Charges "Unknown")
    nearestPlace := some (jsOr details.NearestPlace "Unknown")
    rampType := some (jsOr details.RampType "Unknown")
    suitability := some (jsOr details.Suitability "Unknown")
    directions := some (jsOr details.Directions "")
    email := some (jsOr details.Email "")
    lowerArea := some (jsOr details.LowerArea "")
    mobilePhoneNumber := some (jsOr details.MobilePhoneNumber "")
    navigationalHazards := some (jsOr details.NavigationalHazards "")
    rampDescription := some (jsOr details.RampDescription "")
    rampLength := some (jsOr details.RampLength "")
    upperArea := some (jsOr details.UpperArea "")
    website := some (jsOr details.Website "") }

/-- One iteration of the join loop: the entity is produced only when the id
has a detail record and the coordinate value has length at least 2. -/
def joinEntry (details : List (String × DetailsRecord)) :
    String × List String → Option Slipway
  | (k, coords) =>
    match lookupTable k details with
    | some d => if 2 ≤ coords.length then some (mkSlipway k coords d) else none
    | none => none

/-- The two-table join of `fetchSlipways`: iterate the coordinate table's
keys and keep the ids that pass `joinEntry`. -/
def joinSlipways (latLngs : List (String × List String))
    (details : List (String × DetailsRecord)) : List Slipway :=
  latLngs.filterMap (joinEntry details)

/-- First hardcoded fallback sample entity of `fetchSlipways`. -/
def sampleSlipway1 : Slipway :=
  { id := "1"
    name := "Sample Slipway 1"
    description := "A beautiful slipway with great facilities"
    latitude := some ((51505 : ℚ) / 1000)
    longitude := some (-(9 : ℚ) / 100) }

/-- Second hardcoded fallback sample entity of `fetchSlipways`. -/
def sampleSlipway2 : Slipway :=
  { id := "2"
    name := "Sample Slipway 2"
    description := "Another great slipway with stunning views"
    latitude := some ((51515 : ℚ) / 1000)
    longitude := some (-(1 : ℚ) / 10) }

/-- Third hardcoded fallback sample entity of `fetchSlipways`. -/
def sampleSlipway3 : Slipway :=
  { id := "3"
    name := "Sample Slipway 3"
    description := "Perfect for launching boats"
    latitude := some ((51525 : ℚ) / 1000)
    longitude := some (-(11 : ℚ) / 100) }

/-- The fixed fallback set installed by the `catch` branch of `fetchSlipways`. -/
def fallbackSlipways : List Slipway :=
  [sampleSlipway1, sampleSlipway2, sampleSlipway3]

/-- The load step of `fetchSlipways`: a Firebase snapshot `exists()` only when
the table is present and nonempty, so an absent-or-empty table on either side
takes the throw/catch path, setting the error banner and the fallback set.
Returns the slipway list together with the error state. -/
def fetchSlipways (latLngs : List (String × List String))
    (details : List (String × DetailsRecord)) : List Slipway × Option String :=
  if latLngs ≠ [] ∧ details ≠ [] then (joinSlipways latLngs details, none)
  else (fallbackSlipways, some "Failed to load slipway data")

/-- The ramp-length predicate of the filter effect:
`slipway.rampLength && slipway.rampLength === rampLengthFilter`. -/
def rampAdmit (s : Slipway) (rampLengthFilter : String) : Bool :=
  match s.rampLength with
  | none => false
  | some r => r != "" && r == rampLengthFilter

/-- The hierarchical suitability predicate of the filter effect: a falsy
suitability is rejected first, then the three tiers are compared. -/
def suitAdmit (s : Slipway) (suitabilityFilter : String) : Bool :=
  match s.suitability with
  | none => false
  | some v =>
    if v = "" then false
    else if suitabilityFilter = "Portable Only" then true
    else if suitabilityFilter = "Small trailer can be pushed" then
      v == "Small trailer can be pushed" || v == "Large trailer needs a car"
    else if suitabilityFilter = "Large trailer needs a car" then
      v == "Large trailer needs a car"
    else false

/-- The filter effect of the Map component: each filter is applied only when
its value is truthy (nonempty), ramp length first, then suitability. -/
def applyFilters (slipways : List Slipway) (rampLengthFilter suitabilityFilter : String) :
    List Slipway :=
  let f₁ := if rampLengthFilter != "" then
    slipways.filter (fun s => rampAdmit s rampLengthFilter) else slipways
  if suitabilityFilter != "" then
    f₁.filter (fun s => suitAdmit s suitabilityFilter) else f₁

/-- A candidate upload file: only its declared content type and byte size
matter to the modelled code. -/
structure FileCandidate where
  type : String
  size : ℕ
  deriving DecidableEq, Repr

/-- Result of `validateImageFile`. -/
structure ValidationResult where
  valid : Bool
  error : Option String
  deriving DecidableEq, Repr

/-- The content-type allow-list of `validateImageFile`. -/
def allowedImageTypes : List String :=
  ["image/jpeg", "image/jpg", "image/png", "image/webp"]

/-- The size ceiling of `validateImageFile`: 10 * 1024 * 1024 bytes. -/
def maxImageSize : ℕ := 10 * 1024 * 1024

/-- `validateImageFile` from the fetch-image service: type check first, then
size check, each with its own user-facing message. -/
def validateImageFile (file : FileCandidate) : ValidationResult :=
  if file.type ∉ allowedImageTypes then
    { valid := false, error := some "Please select a valid image file (JPEG, PNG, or WebP)" }
  else if maxImageSize < file.size then
    { valid := false, error := some "Image file size must be less than 10MB" }
  else { valid := true, error := none }

/-- `generateImageId`: deterministic in its timestamp and random suffix. -/
def generateImageId (slipwayId : String) (timestamp : ℕ) (random : String) : String :=
  "slipway_" ++ slipwayId ++ "_" ++ toString timestamp ++ "_" ++ random

/-- A resolved display image (`fetchImgsService` output element). -/
structure ImageUrl where
  src : String
  id : String
  deriving DecidableEq, Repr

/-- The fixed display-URL ingredients of `fetchImgsService`; the bucket comes
from the environment. -/
def imgUrlBase (bucket : String) : String :=
  "https://s3-eu-west-1.amazonaws.com/" ++ bucket ++ "/WebSitePhotos/"

/-- The fixed display-URL file ending of `fetchImgsService`. -/
def imgUrlEnding : String := "___Source.jpg"

/-- `fetchImgsService`: every stored image id maps to `base ++ id ++ ending`. -/
def fetchImgsService (bucket : String) (imgIds : Option (List String)) : List ImageUrl :=
  match imgIds with
  | none => []
  | some l =>
    if l.length = 0 then []
    else l.map (fun i => { src := imgUrlBase bucket ++ i ++ imgUrlEnding, id := i })

/-- Outcome of the sign phase (the `fetch` to the signing endpoint):
a 2xx JSON response with the two URLs, a non-ok response whose parsed body
may carry an `error` string, or a thrown network error with its message. -/
inductive SignOutcome where
  | ok (signedRequest url : String)
  | httpError (errorField : Option String)
  | networkFail (message : String)
  deriving DecidableEq, Repr

/-- Outcome of the transfer phase (the direct PUT): a final HTTP status
delivered to `onload`, or a network error delivered to `onerror`. -/
inductive TransferOutcome where
  | status (n : ℕ)
  | netError
  deriving DecidableEq, Repr

/-- `proxyUploadService` as a function of the two phase outcomes: a non-ok
sign response throws (`errorData.error || 'Failed to get upload URL'`), the
transfer resolves with the public URL only on status 200 and otherwise
rejects with the corresponding message. -/
def proxyUploadService (sign : SignOutcome) (transfer : TransferOutcome) :
    Except String String :=
  match sign with
  | .networkFail m => .error m
  | .httpError e => .error (jsOr e "Failed to get upload URL")
  | .ok _ url =>
    match transfer with
    | .status n =>
      if n = 200 then .ok url
      else .error ("S3 upload failed with status: " ++ toString n)
    | .netError => .error "Network error during S3 upload"

/-- A JSON-ish value stored in a Firebase record field. -/
inductive FieldVal where
  | vStr : String → FieldVal
  | vNum : Option ℚ → FieldVal
  | vStrList : List String → FieldVal
  | vComments : List Comment → FieldVal
  deriving DecidableEq, Repr

/-- A stored Firebase record: field name to value, absent fields omitted. -/
abbrev StoredRecord : Type := List (String × FieldVal)

/-- Helper emitting a field only when the JS object carries it. -/
def optField (k : String) (v : Option FieldVal) : List (String × FieldVal) :=
  match v with
  | some x => [(k, x)]
  | none => []

/-- Serialization of the in-memory `Slipway` object as `set` persists it:
lowercase keys, coordinates and the id included, facilities as an array. -/
def serializeSlipway (s : Slipway) : StoredRecord :=
  [("id", .vStr s.id), ("name", .vStr s.name), ("description", .vStr s.description),
   ("latitude", .vNum s.latitude), ("longitude", .vNum s.longitude)]
  ++ optField "facilities" (s.facilities.map .vStrList)
  ++ optField "imgs" (s.imgs.map .vStrList)
  ++ optField "comments" (s.comments.map .vComments)
  ++ optField "charges" (s.charges.map .vStr)
  ++ optField "nearestPlace" (s.nearestPlace.map .vStr)
  ++ optField "rampType" (s.rampType.map .vStr)
  ++ optField "suitability" (s.suitability.map .vStr)
  ++ optField "directions" (s.directions.map .vStr)
  ++ optField "email" (s.email.map .vStr)
  ++ optField "lowerArea" (s.lowerArea.map .vStr)
  ++ optField "mobilePhoneNumber" (s.mobilePhoneNumber.map .vStr)
  ++ optField "navigationalHazards" (s.navigationalHazards.map .vStr)
  ++ optField "rampDescription" (s.rampDescription.map .vStr)
  ++ optField "rampLength" (s.rampLength.map .vStr)
  ++ optField "upperArea" (s.upperArea.map .vStr)
  ++ optField "website" (s.website.map .vStr)

/-- Serialization of a raw detail record as stored under
`slipwayDetails/<id>` (capitalized keys). -/
def serializeDetails (d : DetailsRecord) : StoredRecord :=
  optField "Name" (d.Name.map .vStr)
  ++ optField "Description" (d.Description.map .vStr)
  ++ optField "RampDescription" (d.RampDescription.map .vStr)
  ++ optField "Facilities" (d.Facilities.map .vStr)
  ++ optField "Charges" (d.Charges.map .vStr)
  ++ optField "NearestPlace" (d.NearestPlace.map .vStr)
  ++ optField "RampType" (d.RampType.map .vStr)
  ++ optField "Suitability" (d.Suitability.map .vStr)
  ++ optField "RampLength" (d.RampLength.map .vStr)
  ++ optField "UpperArea" (d.UpperArea.map .vStr)
  ++ optField "LowerArea" (d.LowerArea.map .vStr)
  ++ optField "Directions" (d.Directions.map .vStr)
  ++ optField "Email" (d.Email.map .vStr)
  ++ optField "MobilePhoneNumber" (d.MobilePhoneNumber.map .vStr)
  ++ optField "NavigationalHazards" (d.NavigationalHazards.map .vStr)
  ++ optField "Website" (d.Website.map .vStr)
  ++ optField "imgs" (d.imgs.map .vStrList)
  ++ optField "ImageIds" (d.ImageIds.map .vStrList)
  ++ optField "comments" (d.comments.map .vComments)

/-- What a photo-upload attempt did: how many HTTP requests went out, which
records were written to the store, and the component's slipway state after. -/
structure UploadAttemptResult where
  networkRequests : ℕ
  storeWrites : List (String × StoredRecord)
  slipwayAfter : Option Slipway
  deriving DecidableEq, Repr

/-- The transfer PUT is only issued once the sign fetch succeeded. -/
def transferAttempts : SignOutcome → ℕ
  | .ok _ _ => 1
  | _ => 0

/-- `handlePhotoUpload` from `SlipwayView.tsx` as a function of the phase
outcomes: validation gates everything (zero requests on failure); a rejected
upload promise is caught and changes nothing; on success with a truthy URL
and a non-null slipway the whole updated in-memory slipway object — new image
id appended to `imgs` — is written to `slipwayDetails/<id>`. -/
def handlePhotoUpload (slipwayId : String) (slipway : Option Slipway)
    (file : FileCandidate) (newImageId : String)
    (sign : SignOutcome) (transfer : TransferOutcome) : UploadAttemptResult :=
  if (validateImageFile file).valid then
    match proxyUploadService sign transfer with
    | .error _ => { networkRequests := 1 + transferAttempts sign, storeWrites := [], slipwayAfter := slipway }
    | .ok url =>
      if url != "" then
        match slipway with
        | some s =>
          let updatedImgs := s.imgs.getD [] ++ [newImageId]
          let updatedSlipway := { s with imgs := some updatedImgs }
          { networkRequests := 2,
            storeWrites := [(slipwayId, serializeSlipway updatedSlipway)],
            slipwayAfter := some updatedSlipway }
        | none => { networkRequests := 2, storeWrites := [], slipwayAfter := none }
      else { networkRequests := 2, storeWrites := [], slipwayAfter := slipway }
  else { networkRequests := 0, storeWrites := [], slipwayAfter := slipway }

/-- The detail record written by `handleSave`: capitalized keys rebuilt from
the edited in-memory slipway; `Facilities` is `facilities?.join(', ') || ''`
and `RampDescription` is `rampDescription || description`. -/
def handleSaveRecord (edited : Slipway) : DetailsRecord :=
  { Name := some edited.name
    Description := some edited.description
    RampDescription := some (jsOr edited.rampDescription edited.description)
    Facilities := some (match edited.facilities with
      | none => ""
      | some l => joinFacilities l)
    Charges := edited.charges
    NearestPlace := edited.nearestPlace
    RampType := edited.rampType
    Suitability := edited.suitability
    Directions := edited.directions
    Email := edited.email
    LowerArea := edited.lowerArea
    MobilePhoneNumber := edited.mobilePhoneNumber
    NavigationalHazards := edited.navigationalHazards
    RampLength := edited.rampLength
    UpperArea := edited.upperArea
    Website := edited.website }

/-- The entities of a join result carrying a given id. -/
def filtId (slipwayId : String) (l : List Slipway) : List Slipway :=
  l.filter (fun s => s.id == slipwayId)

/-- A representative stored detail record used as concrete input. -/
def exDetails : DetailsRecord :=
  { Name := some "Dockside"
    Description := some "A concrete dock"
    Facilities := some "Parking, Toilets"
    Charges := some "Free"
    Suitability := some "Large trailer needs a car"
    RampLength := some "Over 10m"
    imgs := some ["img1"] }

/-- Concrete coordinate table: one id "a". -/
def exL1 : List (String × List String) := [("a", ["51.5", "-0.1"])]

/-- Concrete detail table: id "a" shared with `exL1`, id "orphan" not. -/
def exD1 : List (String × DetailsRecord) := [("a", exDetails), ("orphan", exDetails)]

/-- Concrete coordinate table whose strings do not parse as numbers. -/
def exBadCoordsL : List (String × List String) := [("7", ["abc", "def"])]

/-- Concrete detail table paired with `exBadCoordsL`. -/
def exBadCoordsD : List (String × DetailsRecord) := [("7", exDetails)]

/-- A concrete joined entity (all optional fields populated by the join). -/
def exJoinedSlipway : Slipway := mkSlipway "a" ["51.5", "-0.1"] exDetails

/-- A concrete edited entity carrying a facilities list. -/
def exFacilitiesSlipway : Slipway :=
  { exJoinedSlipway with facilities := some ["Parking", "Toilets", "Café"] }

/-- The concrete entity at id "42" before a photo upload. -/
def exSlipway42 : Slipway := mkSlipway "42" ["51.5", "-0.1"] exDetails

/-- The in-memory entity after appending the freshly generated image id. -/
def exUploadedSlipway42 : Slipway := { exSlipway42 with imgs := some ["img1", "newimg"] }

/-- A fully successful upload attempt on `exSlipway42`. -/
def exUploadRes : UploadAttemptResult :=
  handlePhotoUpload "42" (some exSlipway42) ⟨"image/png", 5000⟩ "newimg"
    (.ok "signedReq" "https://public.example/img") (.status 200)

theorem joinEntry_id {D : List (String × DetailsRecord)} {k : String}
    {c : List String} {s : Slipway} (h : joinEntry D (k, c) = some s) : s.id = k := by
  rw [joinEntry] at h
  cases hD : lookupTable k D with
  | none => simp [hD] at h
  | some d =>
    simp only [hD] at h
    by_cases hl : 2 ≤ c.length
    · rw [if_pos hl] at h
      cases h
      rfl
    · rw [if_neg hl] at h
      exact absurd h (by simp)

theorem lookupTable_eq_none {α : Type} {k : String} :
    ∀ {l : List (String × α)}, lookupTable k l = none ↔ k ∉ l.map Prod.fst := by
  intro l
  induction l with
  | nil => simp [lookupTable]
  | cons p t ih =>
    obtain ⟨k₁, v⟩ := p
    simp only [lookupTable, List.map_cons, List.mem_cons]
    by_cases h : k₁ = k
    · subst h
      simp
    · rw [if_neg h]
      simp only [ih]
      constructor
      · intro hn hm
        rcases hm with hm | hm
        · exact h hm.symm
        · exact hn hm
      · intro hn hm
        exact hn (Or.inr hm)

theorem filtId_join_not_mem (D : List (String × DetailsRecord)) (slipwayId : String) :
    ∀ L : List (String × List String), slipwayId ∉ L.map Prod.fst →
      filtId slipwayId (joinSlipways L D) = [] := by
  intro L
  induction L with
  | nil => intro _; rfl
  | cons p t ih =>
    intro h
    obtain ⟨k, c⟩ := p
    simp only [List.map_cons, List.mem_cons] at h
    push_neg at h
    obtain ⟨hk, ht⟩ := h
    simp only [filtId, joinSlipways, List.filterMap_cons] at *
    cases hE : joinEntry D (k, c) with
    | none => exact ih ht
    | some s =>
      have hs : s.id = k := joinEntry_id hE
      have hbeq : (s.id == slipwayId) = false := by
        rw [hs]
        exact beq_eq_false_iff_ne.mpr (fun hkk => hk hkk.symm)
      rw [List.filter_cons_of_neg (by simpa using hbeq)]
      exact ih ht

theorem filtId_join_details_none (D : List (String × DetailsRecord)) (slipwayId : String)
    (hD : lookupTable slipwayId D = none) :
    ∀ L : List (String × List String), filtId slipwayId (joinSlipways L D) = [] := by
  intro L
  induction L with
  | nil => rfl
  | cons p t ih =>
    obtain ⟨k, c⟩ := p
    simp only [filtId, joinSlipways, List.filterMap_cons] at *
    cases hE : joinEntry D (k, c) with
    | none => exact ih
    | some s =>
      have hs : s.id = k := joinEntry_id hE
      have hk : k ≠ slipwayId := by
        intro hkk
        subst hkk
        simp [joinEntry, hD] at hE
      have hbeq : (s.id == slipwayId) = false := by
        rw [hs]
        exact beq_eq_false_iff_ne.mpr hk
      rw [List.filter_cons_of_neg (by simpa using hbeq)]
      exact ih

theorem filtId_join_eq {D : List (String × DetailsRecord)} {slipwayId : String}
    {coords : List String} {d : DetailsRecord} :
    ∀ {L : List (String × List String)}, (L.map Prod.fst).Nodup →
      lookupTable slipwayId L = some coords →
      lookupTable slipwayId D = some d → 2 ≤ coords.length →
      filtId slipwayId (joinSlipways L D) = [mkSlipway slipwayId coords d] := by
  intro L
  induction L with
  | nil => intro _ hL; exact absurd hL (by simp [lookupTable])
  | cons p t ih =>
    intro hnd hL hD hlen
    obtain ⟨k, c⟩ := p
    rw [List.map_cons, List.nodup_cons] at hnd
    obtain ⟨hknd, htnd⟩ := hnd
    rw [lookupTable] at hL
    by_cases hk : k = slipwayId
    · rw [if_pos hk] at hL
      have hc : c = coords := by injection hL
      subst hc
      subst hk
      have hE : joinEntry D (k, c) = some (mkSlipway k c d) := by
        simp [joinEntry, hD, hlen]
      have htail : filtId k (joinSlipways t D) = [] :=
        filtId_join_not_mem D k t hknd
      simp only [filtId, joinSlipways, List.filterMap_cons] at *
      rw [hE]
      have hbeq : ((mkSlipway k c d).id == k) = true := by
        simp [mkSlipway]
      rw [List.filter_cons_of_pos (by simpa using hbeq), htail]
    · rw [if_neg hk] at hL
      simp only [filtId, joinSlipways, List.filterMap_cons] at *
      cases hE : joinEntry D (k, c) with
      | none => exact ih htnd hL hD hlen
      | some s =>
        have hs : s.id = k := joinEntry_id hE
        have hbeq : (s.id == slipwayId) = false := by
          rw [hs]
          exact beq_eq_false_iff_ne.mpr hk
        rw [List.filter_cons_of_neg (by simpa using hbeq)]
        exact ih htnd hL hD hlen

theorem filter_ramp_fallback (rampLengthFilter : String) :
    fallbackSlipways.filter (fun s => rampAdmit s rampLengthFilter) = [] := rfl

theorem filter_suit_fallback (suitabilityFilter : String) :
    fallbackSlipways.filter (fun s => suitAdmit s suitabilityFilter) = [] := rfl

theorem handlePhotoUpload_error_frame {sign : SignOutcome} {transfer : TransferOutcome}
    {m : String} (hp : proxyUploadService sign transfer = .error m)
    (slipwayId : String) (slipway : Option Slipway) (file : FileCandidate)
    (newImageId : String) :
    (handlePhotoUpload slipwayId slipway file newImageId sign transfer).storeWrites = []
    ∧ (handlePhotoUpload slipwayId slipway file newImageId sign transfer).slipwayAfter
        = slipway := by
  unfold handlePhotoUpload
  by_cases hv : (validateImageFile file).valid = true
  · rw [if_pos hv, hp]
    exact ⟨rfl, rfl⟩
  · rw [if_neg hv]
    exact ⟨rfl, rfl⟩

/-- C1: for every id present in both the coordinate table and the detail
table whose coordinate value has length ≥ 2, the join produces exactly one
entity with that id; for an id present in only one of the two tables, the
join produces zero entities with that id. -/
theorem join_produces_one_entity_per_shared_id
    (latLngs : List (String × List String)) (details : List (String × DetailsRecord))
    (slipwayId : String) (hnd : (latLngs.map Prod.fst).Nodup) :
    (∀ coords d, lookupTable slipwayId latLngs = some coords →
        lookupTable slipwayId details = some d → 2 ≤ coords.length →
        (filtId slipwayId (joinSlipways latLngs details)).length = 1)
    ∧ ((lookupTable slipwayId latLngs = none ∨ lookupTable slipwayId details = none) →
        (filtId slipwayId (joinSlipways latLngs details)).length = 0) := by
  constructor
  · intro coords d hL hD hlen
    rw [filtId_join_eq hnd hL hD hlen]
    rfl
  · intro h
    rcases h with h | h
    · rw [filtId_join_not_mem details slipwayId latLngs (lookupTable_eq_none.mp h)]
      rfl
    · rw [filtId_join_details_none details slipwayId h latLngs]
      rfl

theorem join_produces_one_entity_per_shared_id_witness :
    (filtId "a" (joinSlipways exL1 exD1)).length = 1
    ∧ (filtId "orphan" (joinSlipways exL1 exD1)).length = 0 :=
  ⟨(join_produces_one_entity_per_shared_id exL1 exD1 "a" (by decide)).1
      ["51.5", "-0.1"] exDetails (by decide) (by decide) (by decide),
   (join_produces_one_entity_per_shared_id exL1 exD1 "orphan" (by decide)).2
      (Or.inl (by decide))⟩

/-- C3 counterexample: id "7" is present in both tables and its coordinate
strings "abc"/"def" do not parse as numbers, yet the join still produces one
entity for it instead of excluding it: nothing in `fetchSlipways` checks the
`parseFloat` result, so the entity is kept with NaN coordinates. -/
theorem unparsable_coords_not_excluded :
    (filtId "7" (joinSlipways exBadCoordsL exBadCoordsD)).length = 1
    ∧ (joinSlipways exBadCoordsL exBadCoordsD).map (fun s => s.latitude) = [none]
    ∧ parseFloatJS "abc" = none := by decide

/-- C3 amended: for an id present in both tables whose coordinate strings do
not parse as numbers, the join keeps exactly that one entity, whose latitude
and longitude are NaN (modelled `none`); the join is a total function, so it
never raises. -/
theorem unparsable_coords_entity_included
    (latLngs : List (String × List String)) (details : List (String × DetailsRecord))
    (slipwayId : String) (coords : List String) (d : DetailsRecord)
    (hnd : (latLngs.map Prod.fst).Nodup)
    (hL : lookupTable slipwayId latLngs = some coords)
    (hD : lookupTable slipwayId details = some d)
    (hlen : 2 ≤ coords.length)
    (hlat : parseFloatJS (coords.getD 0 "") = none)
    (hlng : parseFloatJS (coords.getD 1 "") = none) :
    filtId slipwayId (joinSlipways latLngs details) = [mkSlipway slipwayId coords d]
    ∧ (mkSlipway slipwayId coords d).latitude = none
    ∧ (mkSlipway slipwayId coords d).longitude = none := by
  refine ⟨filtId_join_eq hnd hL hD hlen, ?_, ?_⟩
  · exact hlat
  · exact hlng

theorem unparsable_coords_entity_included_witness :
    filtId "7" (joinSlipways exBadCoordsL exBadCoordsD)
      = [mkSlipway "7" ["abc", "def"] exDetails]
    ∧ (mkSlipway "7" ["abc", "def"] exDetails).latitude = none
    ∧ (mkSlipway "7" ["abc", "def"] exDetails).longitude = none :=
  unparsable_coords_entity_included exBadCoordsL exBadCoordsD "7" ["abc", "def"] exDetails
    (by decide) (by decide) (by decide) (by decide) (by decide) (by decide)

/-- C2 counterexample: under the "Portable Only" filter, an entity with no
suitability value (the first fallback sample) is NOT admitted — the falsy
check `if (!slipway.suitability) return false` runs before the tier logic —
refuting the claim that "Portable Only" admits every entity including one
with no suitability value. -/
theorem portableOnly_excludes_missing_suitability :
    sampleSlipway1.suitability = none
    ∧ suitAdmit sampleSlipway1 "Portable Only" = false
    ∧ applyFilters [sampleSlipway1] "" "Portable Only" = [] := by decide

/-- C2 amended: "Portable Only" admits every entity that has a truthy
suitability value, regardless of which value; an entity with no suitability
value is excluded under every active suitability filter, including
"Portable Only". -/
theorem missing_suitability_excluded_under_any_filter (s : Slipway)
    (suitabilityFilter : String) :
    (jsTruthyStr s.suitability = true → suitAdmit s "Portable Only" = true)
    ∧ (jsTruthyStr s.suitability = false → suitabilityFilter ≠ "" →
        suitAdmit s suitabilityFilter = false) := by
  constructor
  · intro h
    cases hv : s.suitability with
    | none => rw [hv] at h; simp [jsTruthyStr] at h
    | some v =>
      rw [hv] at h
      simp only [jsTruthyStr] at h
      have hv0 : v ≠ "" := by simpa using h
      simp [suitAdmit, hv, hv0]
  · intro h _
    cases hv : s.suitability with
    | none => simp [suitAdmit, hv]
    | some v =>
      rw [hv] at h
      simp only [jsTruthyStr] at h
      have hv0 : v = "" := by simpa using h
      simp [suitAdmit, hv, hv0]

theorem missing_suitability_excluded_under_any_filter_witness :
    suitAdmit exJoinedSlipway "Portable Only" = true
    ∧ suitAdmit sampleSlipway1 "Large trailer needs a car" = false :=
  ⟨(missing_suitability_excluded_under_any_filter exJoinedSlipway "x").1 (by decide),
   (missing_suitability_excluded_under_any_filter sampleSlipway1
      "Large trailer needs a car").2 (by decide) (by decide)⟩

/-- C4: for an entity with a truthy suitability value, the
"Small trailer can be pushed" filter admits it iff its suitability is
"Small trailer can be pushed" or "Large trailer needs a car", and the
"Large trailer needs a car" filter admits it iff its suitability is exactly
"Large trailer needs a car". -/
theorem suitability_hierarchy_admits (s : Slipway) (v : String)
    (hv : s.suitability = some v) (hv0 : v ≠ "") :
    (suitAdmit s "Small trailer can be pushed" = true ↔
      v = "Small trailer can be pushed" ∨ v = "Large trailer needs a car")
    ∧ (suitAdmit s "Large trailer needs a car" = true ↔
      v = "Large trailer needs a car") := by
  constructor
  · simp only [suitAdmit, hv]
    rw [if_neg hv0,
      if_neg (by decide : ¬("Small trailer can be pushed" : String) = "Portable Only")]
    simp [beq_iff_eq]
  · simp only [suitAdmit, hv]
    rw [if_neg hv0,
      if_neg (by decide : ¬("Large trailer needs a car" : String) = "Portable Only"),
      if_neg (by decide :
        ¬("Large trailer needs a car" : String) = "Small trailer can be pushed")]
    simp [beq_iff_eq]

theorem suitability_hierarchy_admits_witness :
    (suitAdmit exJoinedSlipway "Small trailer can be pushed" = true ↔
      ("Large trailer needs a car" = "Small trailer can be pushed"
        ∨ "Large trailer needs a car" = "Large trailer needs a car"))
    ∧ (suitAdmit exJoinedSlipway "Large trailer needs a car" = true ↔
      "Large trailer needs a car" = "Large trailer needs a car") :=
  suitability_hierarchy_admits exJoinedSlipway "Large trailer needs a car"
    (by decide) (by decide)

/-- C10: each of the three hardcoded fallback sample entities has no
suitability and no ramp-length value, so whenever any non-empty ramp-length
or suitability filter is active, filtering the fallback set yields the empty
set. -/
theorem fallback_entities_filtered_out (rampLengthFilter suitabilityFilter : String)
    (h : rampLengthFilter ≠ "" ∨ suitabilityFilter ≠ "") :
    (∀ s ∈ fallbackSlipways, s.suitability = none ∧ s.rampLength = none)
    ∧ applyFilters fallbackSlipways rampLengthFilter suitabilityFilter = [] := by
  refine ⟨by decide, ?_⟩
  unfold applyFilters
  by_cases hrf : (rampLengthFilter != "") = true
  · rw [if_pos hrf, filter_ramp_fallback]
    by_cases hsf : (suitabilityFilter != "") = true
    · rw [if_pos hsf]
      rfl
    · rw [if_neg hsf]
  · rw [if_neg hrf]
    have hsf : suitabilityFilter ≠ "" := by
      rcases h with h | h
      · exact absurd (bne_iff_ne.mpr h) hrf
      · exact h
    rw [if_pos (bne_iff_ne.mpr hsf), filter_suit_fallback]

theorem fallback_entities_filtered_out_witness :
    (∀ s ∈ fallbackSlipways, s.suitability = none ∧ s.rampLength = none)
    ∧ applyFilters fallbackSlipways "Over 10m" "" = [] :=
  fallback_entities_filtered_out "Over 10m" "" (Or.inl (by decide))

/-- C5: when the transfer phase ends with a non-200 status or a network
error, the upload promise rejects with the corresponding error message, and
the attempt performs no store write and leaves the component's slipway state
— in particular its image list — unchanged. -/
theorem transfer_failure_rejects_and_preserves_imgs (signedRequest url : String)
    (n : ℕ) (hn : n ≠ 200) :
    proxyUploadService (.ok signedRequest url) (.status n)
      = .error ("S3 upload failed with status: " ++ toString n)
    ∧ proxyUploadService (.ok signedRequest url) .netError
      = .error "Network error during S3 upload"
    ∧ ∀ (slipwayId : String) (slipway : Option Slipway) (file : FileCandidate)
        (newImageId : String),
        ((handlePhotoUpload slipwayId slipway file newImageId
            (.ok signedRequest url) (.status n)).storeWrites = []
          ∧ (handlePhotoUpload slipwayId slipway file newImageId
            (.ok signedRequest url) (.status n)).slipwayAfter = slipway)
        ∧ ((handlePhotoUpload slipwayId slipway file newImageId
            (.ok signedRequest url) .netError).storeWrites = []
          ∧ (handlePhotoUpload slipwayId slipway file newImageId
            (.ok signedRequest url) .netError).slipwayAfter = slipway) := by
  have hp : proxyUploadService (.ok signedRequest url) (.status n)
      = .error ("S3 upload failed with status: " ++ toString n) := by
    simp [proxyUploadService, hn]
  have hq : proxyUploadService (.ok signedRequest url) .netError
      = .error "Network error during S3 upload" := rfl
  refine ⟨hp, hq, ?_⟩
  intro slipwayId slipway file newImageId
  exact ⟨handlePhotoUpload_error_frame hp slipwayId slipway file newImageId,
    handlePhotoUpload_error_frame hq slipwayId slipway file newImageId⟩

theorem transfer_failure_rejects_and_preserves_imgs_witness :
    proxyUploadService (.ok "signedReq" "https://public.example/img") (.status 500)
      = .error ("S3 upload failed with status: " ++ toString 500)
    ∧ (handlePhotoUpload "42" (some exSlipway42) ⟨"image/png", 5000⟩ "newimg"
        (.ok "signedReq" "https://public.example/img") (.status 500)).storeWrites = []
    ∧ (handlePhotoUpload "42" (some exSlipway42) ⟨"image/png", 5000⟩ "newimg"
        (.ok "signedReq" "https://public.example/img") (.status 500)).slipwayAfter
      = some exSlipway42 :=
  ⟨(transfer_failure_rejects_and_preserves_imgs "signedReq" "https://public.example/img"
      500 (by decide)).1,
   ((transfer_failure_rejects_and_preserves_imgs "signedReq" "https://public.example/img"
      500 (by decide)).2.2 "42" (some exSlipway42) ⟨"image/png", 5000⟩ "newimg").1.1,
   ((transfer_failure_rejects_and_preserves_imgs "signedReq" "https://public.example/img"
      500 (by decide)).2.2 "42" (some exSlipway42) ⟨"image/png", 5000⟩ "newimg").1.2⟩

/-- C6 (code bug, evaluated at the failing input): the stored detail record
at id "42" has capitalized fields (`Name`, `Facilities`, ...), but after a
fully successful upload `handlePhotoUpload` persists the whole in-memory
slipway object instead of the detail record: the written record does gain
exactly the new image id appended to `imgs`, but it carries lowercase keys
(`name`, plus `id`, `latitude`, `longitude`), and the capitalized fields the
read path consumes are gone — so "every other field of the stored detail
record is unchanged" fails. -/
theorem successful_upload_rewrites_detail_record :
    lookupTable "Name" (serializeDetails exDetails) = some (.vStr "Dockside")
    ∧ lookupTable "Facilities" (serializeDetails exDetails)
        = some (.vStr "Parking, Toilets")
    ∧ exUploadRes.storeWrites = [("42", serializeSlipway exUploadedSlipway42)]
    ∧ lookupTable "imgs" (serializeSlipway exUploadedSlipway42)
        = some (.vStrList ["img1", "newimg"])
    ∧ lookupTable "Name" (serializeSlipway exUploadedSlipway42) = none
    ∧ lookupTable "Facilities" (serializeSlipway exUploadedSlipway42) = none
    ∧ lookupTable "name" (serializeSlipway exUploadedSlipway42) = some (.vStr "Dockside")
    ∧ lookupTable "id" (serializeSlipway exUploadedSlipway42) = some (.vStr "42") :=
  ⟨rfl, rfl, rfl, rfl, rfl, rfl, rfl, rfl⟩

/-- C7: a candidate file whose content type is not allow-listed is rejected
with the type message; an allowed type whose size exceeds 10 MiB is rejected
with the size message; any validation failure means the upload attempt issues
zero network requests and writes nothing; an allowed type within the size
ceiling passes validation. -/
theorem file_validation_gates_upload (file : FileCandidate) :
    (file.type ∉ allowedImageTypes →
      validateImageFile file
        = ⟨false, some "Please select a valid image file (JPEG, PNG, or WebP)"⟩)
    ∧ (file.type ∈ allowedImageTypes → maxImageSize < file.size →
      validateImageFile file = ⟨false, some "Image file size must be less than 10MB"⟩)
    ∧ ((validateImageFile file).valid = false →
      ∀ (slipwayId : String) (slipway : Option Slipway) (newImageId : String)
        (sign : SignOutcome) (transfer : TransferOutcome),
        (handlePhotoUpload slipwayId slipway file newImageId sign transfer).networkRequests
          = 0
        ∧ (handlePhotoUpload slipwayId slipway file newImageId sign transfer).storeWrites
          = [])
    ∧ (file.type ∈ allowedImageTypes → file.size ≤ maxImageSize →
      validateImageFile file = ⟨true, none⟩) := by
  refine ⟨?_, ?_, ?_, ?_⟩
  · intro h
    rw [validateImageFile, if_pos h]
  · intro h hs
    rw [validateImageFile, if_neg (by simpa using h), if_pos hs]
  · intro hv slipwayId slipway newImageId sign transfer
    unfold handlePhotoUpload
    rw [if_neg (by simp [hv])]
    exact ⟨rfl, rfl⟩
  · intro h hs
    rw [validateImageFile, if_neg (by simpa using h), if_neg (by omega)]

theorem file_validation_gates_upload_witness :
    validateImageFile ⟨"text/plain", 100⟩
      = ⟨false, some "Please select a valid image file (JPEG, PNG, or WebP)"⟩
    ∧ validateImageFile ⟨"image/png", 10 * 1024 * 1024 + 1⟩
      = ⟨false, some "Image file size must be less than 10MB"⟩
    ∧ (handlePhotoUpload "42" (some exSlipway42) ⟨"text/plain", 100⟩ "newimg"
        (.ok "signedReq" "https://public.example/img") (.status 200)).networkRequests = 0
    ∧ validateImageFile ⟨"image/png", 5000⟩ = ⟨true, none⟩ :=
  ⟨(file_validation_gates_upload ⟨"text/plain", 100⟩).1 (by decide),
   (file_validation_gates_upload ⟨"image/png", 10 * 1024 * 1024 + 1⟩).2.1
      (by decide) (by decide),
   ((file_validation_gates_upload ⟨"text/plain", 100⟩).2.2.1 (by decide)
      "42" (some exSlipway42) "newimg"
      (.ok "signedReq" "https://public.example/img") (.status 200)).1,
   (file_validation_gates_upload ⟨"image/png", 5000⟩).2.2.2 (by decide) (by decide)⟩

/-- C8: if either remote table is absent or empty (a Firebase snapshot only
`exists()` for a nonempty table), the load reports a failure and the
resulting set is exactly the three hardcoded fallback sample entities with
ids "1", "2", "3" — three entities, not zero. -/
theorem empty_tables_fallback_three_samples
    (latLngs : List (String × List String)) (details : List (String × DetailsRecord))
    (h : latLngs = [] ∨ details = []) :
    fetchSlipways latLngs details = (fallbackSlipways, some "Failed to load slipway data")
    ∧ (fetchSlipways latLngs details).1.map (fun s => s.id) = ["1", "2", "3"]
    ∧ (fetchSlipways latLngs details).1.length = 3 := by
  have hcond : ¬(latLngs ≠ [] ∧ details ≠ []) := by
    rcases h with h | h <;> simp [h]
  rw [fetchSlipways, if_neg hcond]
  exact ⟨rfl, rfl, rfl⟩

theorem empty_tables_fallback_three_samples_witness :
    fetchSlipways [] exD1 = (fallbackSlipways, some "Failed to load slipway data")
    ∧ (fetchSlipways [] exD1).1.map (fun s => s.id) = ["1", "2", "3"]
    ∧ (fetchSlipways [] exD1).1.length = 3 :=
  empty_tables_fallback_three_samples [] exD1 (Or.inl rfl)

/-- C9: the facilities string "Parking, Toilets, , Café" parses on read to
exactly ["Parking", "Toilets", "Café"] (empty segment dropped, order
preserved); every entry the parse produces is non-empty after trimming, so
the in-memory list never contains empty or whitespace-only entries; and the
write path flattens the list back to a single comma-separated string, both in
general (`joinFacilities`) and in the record `handleSave` persists. -/
theorem facilities_parse_join_roundtrip :
    parseFacilities (some "Parking, Toilets, , Café") = ["Parking", "Toilets", "Café"]
    ∧ (∀ (fac : Option String) (x : String), x ∈ parseFacilities fac → jsTrim x ≠ "")
    ∧ joinFacilities ["Parking", "Toilets", "Café"] = "Parking, Toilets, Café"
    ∧ (handleSaveRecord exFacilitiesSlipway).Facilities = some "Parking, Toilets, Café" := by
  refine ⟨by decide, ?_, by decide, by decide⟩
  intro fac x hx
  cases fac with
  | none => simp [parseFacilities] at hx
  | some s =>
    simp only [parseFacilities] at hx
    by_cases hs : s = ""
    · rw [if_pos hs] at hx
      simp at hx
    · rw [if_neg hs] at hx
      have hmem := List.mem_filter.mp hx
      simpa [bne_iff_ne] using hmem.2

theorem facilities_parse_join_roundtrip_witness :
    jsTrim "Café" ≠ "" :=
  facilities_parse_join_roundtrip.2.1 (some "Parking, Toilets, , Café") "Café" (by decide)

end Boatlaunch
